import Mathlib

/-!
Verification development for the treasury research scraper.

Shallow embedding of the aggregation / normalization / enrichment pipeline:
* `scraper_treasury.py` (`TreasuryScraper`): per-source adapters and parsers,
* `gemini_treasury_analyzer.py` (`TreasuryAnalyzer`): query enhancement and
  AI relevance enrichment,
* `api.py` (`start_search` / `execute_search`): orchestrator lifecycle.

External effects (HTTP transport, the generative AI service, the persistence
layer) are modelled as explicit oracle arguments; Python exceptions are
modelled as `Except` / explicit failure constructors, Python floats as `ℚ`,
and Python strings as `String` (lexicographic `<` on both sides).
-/

set_option linter.unusedVariables false

namespace Scrapper

/-! ### Python string primitives

Structural (kernel-computable) models of the Python string operations the
scraper uses: `str.strip`, `str.replace('\n', ' ')`, `str.split('/')`,
and lexicographic (code-point) comparison `<` of strings. -/

/-- Python `str.strip()`: drop whitespace from both ends. -/
def pyStrip (s : String) : String :=
  String.mk (((s.data.dropWhile Char.isWhitespace).reverse.dropWhile
    Char.isWhitespace).reverse)

/-- Python `.replace('\n', ' ')` (single-character pattern). -/
def pyReplaceNl (s : String) : String :=
  String.mk (s.data.map fun c => if c = '\n' then ' ' else c)

/-- Lexicographic code-point comparison of character lists. -/
def charListLt : List Char → List Char → Bool
  | _, [] => false
  | [], _ :: _ => true
  | a :: as, b :: bs =>
      if a < b then true else if b < a then false else charListLt as bs

/-- Python `s < t` on strings: lexicographic on code points. -/
def pyStrLt (s t : String) : Bool := charListLt s.data t.data

/-- Splitting a character list on a separator character (accumulator holds
the current segment reversed). -/
def splitCharAux (sep : Char) : List Char → List Char → List (List Char)
  | [], cur => [cur.reverse]
  | c :: rest, cur =>
      if c = sep then cur.reverse :: splitCharAux sep rest []
      else splitCharAux sep rest (c :: cur)

/-- Python `s.split(sep)` for a single-character separator. -/
def pySplitChar (sep : Char) (s : String) : List String :=
  (splitCharAux sep s.data []).map String.mk

/-! ### Canonical result schema

A normalized search result, mirroring the dictionaries built by the
per-source parsers in `scraper_treasury.py` plus the fields added in place by
`TreasuryAnalyzer.analyze_results`.  Absent dictionary keys are `none`. -/

/-- The structured payload returned by the scoring service
(`_analyze_single_result`'s JSON schema, lines 134-156), or its
error-default replacement. -/
structure Analysis where
  relevance_score : ℚ
  treasury_topics : List String
  key_insights : String
  geographic_relevance : Option String := none
  error : Option String := none
deriving Repr, DecidableEq

/-- The `ai_analysis` field attached by `analyze_results`: either a full
analysis dictionary, or the bare `{"error": str(e)}` dictionary written by
the loop-level exception handler (line 122). -/
inductive AiPayload where
  | full (a : Analysis)
  | errorOnly (e : String)
deriving Repr, DecidableEq

/-- Canonical search result record (the result dictionaries of
`scraper_treasury.py`; fields that only some sources set are `Option`s). -/
structure SearchResult where
  id : String
  title : String
  source : String
  authors : String
  abstract : String
  url : String
  date : Option String
  doi : Option String := none
  journal : Option String := none
  citations : Option Nat := none
  relevanceScore : Option ℚ := none
  aiAnalysis : Option AiPayload := none
deriving Repr, DecidableEq

/-! ### RelevanceEnricher (`gemini_treasury_analyzer.py`, lines 84-188) -/

/-- Outcome of the AI scoring call inside `_analyze_single_result`:
either the service returned (and JSON-decoded to) an analysis, or some
exception was raised inside that function's `try` block. -/
inductive ScoreCallOutcome where
  | ok (a : Analysis)
  | fail (e : String)
deriving Repr, DecidableEq

/-- What happens to one iteration of the `analyze_results` loop: the body
reaches the AI scoring call (with the given outcome), or the body itself
raises outside `_analyze_single_result` (e.g. while building the content
excerpt), hitting the `except` handler at line 120. -/
inductive ItemStep where
  | call (o : ScoreCallOutcome)
  | bodyError (e : String)
deriving Repr, DecidableEq

/-- `TreasuryAnalyzer._analyze_single_result` (lines 131-188): on any
exception inside its own `try`, returns the default dictionary with
`relevance_score = 0.5`, empty topics, "Analysis unavailable" insights and
the error string. -/
def analyzeSingleResult : ScoreCallOutcome → Analysis
  | .ok a => a
  | .fail e =>
      { relevance_score := 1/2
        treasury_topics := []
        key_insights := "Analysis unavailable"
        geographic_relevance := none
        error := some e }

/-- One iteration of the `analyze_results` loop (lines 100-124) applied to
one result: on a successful reach of the scoring call the analysis is
attached and `relevance_score` copied from it; if the loop body raises, the
handler writes `ai_analysis = {"error": str(e)}` and `relevance_score = 0.0`.
Either way the (mutated) result is appended. -/
def enrichStep (r : SearchResult) : ItemStep → SearchResult
  | .call o =>
      let a := analyzeSingleResult o
      { r with aiAnalysis := some (.full a), relevanceScore := some a.relevance_score }
  | .bodyError e =>
      { r with aiAnalysis := some (.errorOnly e), relevanceScore := some 0 }

/-- The enrichment loop of `analyze_results` before the final sort: one
output per input, in input order; the oracle gives each index its step
outcome. -/
def enrichAll (oracle : Nat → ItemStep) (results : List SearchResult) : List SearchResult :=
  results.enum.map fun p => enrichStep p.2 (oracle p.1)

/-- The sort key `lambda x: x.get('relevance_score', 0)` (line 127). -/
def sortKey (r : SearchResult) : ℚ := r.relevanceScore.getD 0

/-- The comparison realizing Python's stable `list.sort(key=..., reverse=True)`:
`a` may precede `b` iff `sortKey b ≤ sortKey a`. -/
def scoreDescLe (a b : SearchResult) : Bool := decide (sortKey b ≤ sortKey a)

/-- Python's `list.sort(key=..., reverse=True)` is a stable descending sort;
embedded as the (stable) `List.mergeSort` under `scoreDescLe`. -/
def pySortDesc (l : List SearchResult) : List SearchResult :=
  l.mergeSort scoreDescLe

/-- `TreasuryAnalyzer.analyze_results` (lines 84-129): passthrough when the
scoring service is unconfigured (`self.model` is `None`), otherwise enrich
every item and sort by descending relevance score. -/
def analyze_results (configured : Bool) (oracle : Nat → ItemStep)
    (results : List SearchResult) : List SearchResult :=
  if configured then pySortDesc (enrichAll oracle results) else results

/-! ### QueryEnhancer (`gemini_treasury_analyzer.py`, lines 48-82) -/

/-- `TreasuryAnalyzer.enhance_search_query`: original query when the service
is unconfigured; original on any exception from the call; otherwise the
stripped response text, unless its length is less than half the original
query's length (`len(enhanced) < len(original_query) * 0.5`), in which case
the original query again. -/
def enhance_search_query (configured : Bool) (call : Except String String)
    (original_query : String) : String :=
  if !configured then original_query
  else
    match call with
    | .error _ => original_query
    | .ok txt =>
        let enhanced := pyStrip txt
        if 2 * enhanced.length < original_query.length then original_query
        else enhanced

/-! ### Shared pieces of the source adapters (`scraper_treasury.py`) -/

/-- Outcome of one HTTP request: timeout, other transport exception, or a
status code with a body (the body is `Option`al page/document content:
`none` models a body whose top-level parse raised, which every parser turns
into an empty result list). -/
inductive Transport (β : Type) where
  | timeout
  | exn (e : String)
  | status (code : Nat) (body : β)
deriving Repr, DecidableEq

/-- Python truthiness of an optional string parameter (`if date_from:` is
false for both `None` and `""`). -/
def truthy : Option String → Bool
  | none => false
  | some s => !(s == "")

/-- First match of the regex `\d{4}` in a string (`re.search(r'\d{4}', ...)`):
the first run of four consecutive decimal digits. -/
def findYear4Go : List Char → Option String
  | a :: b :: c :: d :: rest =>
      if a.isDigit && b.isDigit && c.isDigit && d.isDigit then
        some (String.mk [a, b, c, d])
      else findYear4Go (b :: c :: d :: rest)
  | _ => none

/-- See `findYear4Go`. -/
def findYear4 (s : String) : Option String :=
  findYear4Go s.data

/-- The post-parse year-range filter used by the google_scholar (lines
191-197), researchgate (lines 408-414) and scopus (lines 536-541) variants:
drop the record iff a year was extracted and it is lexicographically below
`date_from[:4]` or above `date_to[:4]` (all comparisons on strings, guarded
by Python truthiness of the bound and of the year). -/
def yearRangeDrop (date_from date_to : Option String) (year : Option String) : Bool :=
  (truthy date_from && year.isSome
      && pyStrLt (year.getD "") ((date_from.getD "").take 4))
  || (truthy date_to && year.isSome
      && pyStrLt ((date_to.getD "").take 4) (year.getD ""))

/-! ### arXiv adapter (lines 64-153) -/

/-- One Atom `entry` element as found by `_parse_arxiv_response`: the texts
of its child elements (`none` when the element is missing or has no text,
matching the `is not None and .text` guards). -/
structure ArxivEntry where
  title : Option String := none
  summary : Option String := none
  authorNames : List String := []
  published : Option String := none
  idUrl : Option String := none
deriving Repr, DecidableEq

/-- `url.split('/')[-1] if url else ""` (line 130). -/
def arxivNaturalId (e : ArxivEntry) : String :=
  let url := e.idUrl.getD ""
  if url = "" then "" else (pySplitChar '/' url).getLastD ""

/-- Normalization of one arXiv entry (lines 113-141); `k` is
`len(results)` at append time, i.e. the record's position. -/
def mkArxivResult (e : ArxivEntry) (k : Nat) : SearchResult :=
  { id := if arxivNaturalId e = "" then "arxiv_" ++ toString k else arxivNaturalId e
    title := match e.title with
      | none => ""
      | some t => if t = "" then "" else pyReplaceNl (pyStrip t)
    source := "arxiv"
    authors := String.intercalate "; " (e.authorNames.map pyStrip)
    abstract := match e.summary with
      | none => ""
      | some t => if t = "" then "" else pyReplaceNl (pyStrip t)
    url := e.idUrl.getD ""
    date := match e.published with
      | none => none
      | some p => if p = "" then none else some (p.take 10) }

/-- The entry loop of `_parse_arxiv_response` (every entry appended; no date
filter exists in this variant). -/
def parseArxivAux : List ArxivEntry → List SearchResult → List SearchResult
  | [], acc => acc
  | e :: rest, acc => parseArxivAux rest (acc ++ [mkArxivResult e acc.length])

/-- `TreasuryScraper._parse_arxiv_response` (lines 104-153). -/
def parse_arxiv_response (entries : List ArxivEntry) : List SearchResult :=
  parseArxivAux entries []

/-- The request parameters `_search_arxiv` sends (lines 75-83): domain
terms injected into the query, `max_results` clamped to the API limit 100. -/
structure ArxivRequest where
  search_query : String
  start : Nat
  max_results : Nat
  sortBy : String
  sortOrder : String
deriving Repr, DecidableEq

/-- See `ArxivRequest`. -/
def arxivRequest (query : String) (max_results : Nat) : ArxivRequest :=
  { search_query :=
      "all:(" ++ query ++ " OR treasury OR cash OR liquidity) AND (cat:q-fin.* OR cat:econ.*)"
    start := 0
    max_results := min max_results 100
    sortBy := "submittedDate"
    sortOrder := "descending" }

/-- `TreasuryScraper._search_arxiv` (lines 64-102): parse on HTTP 200,
empty list on any other status, on timeout, on any other exception, and on
XML parse failure; `date_from`/`date_to` are accepted but never used. -/
def search_arxiv (net : Transport (Option (List ArxivEntry))) (query : String)
    (max_results : Nat) (date_from date_to : Option String) : List SearchResult :=
  match net with
  | .timeout => []
  | .exn _ => []
  | .status code body =>
      if code = 200 then
        match body with
        | none => []
        | some entries => parse_arxiv_response entries
      else []

/-! ### Crossref adapter (lines 232-331) -/

/-- One author object of a Crossref item (`given`/`family`, defaults `""`). -/
structure CrossrefAuthor where
  given : String := ""
  family : String := ""
deriving Repr, DecidableEq

/-- One JSON item of `message.items`.  `dateParts` is the value of
`item.get('published-print', {}).get('date-parts', [[]])`, so callers model
an absent `published-print`/`date-parts` key as `[[]]`; the empty list makes
the `[0]` index raise, skipping the item. -/
structure CrossrefItem where
  title : List String := []
  author : List CrossrefAuthor := []
  abstract : Option String := none
  containerTitle : Option (List String) := none
  dateParts : List (List Nat) := [[]]
  doi : String := ""
  url : String := ""
  itemType : String := ""
deriving Repr, DecidableEq

/-- Zero-padded two-digit rendering of `n` (the `:02d` format). -/
def pad2 (n : Nat) : String :=
  if n < 10 then "0" ++ toString n else toString n

/-- Normalization of one Crossref item (lines 286-323); `k` is
`len(results)` at append time.  `none` when the item raises (empty
`date-parts` list) and is skipped. -/
def mkCrossrefResult (item : CrossrefItem) (k : Nat) : Option SearchResult :=
  match item.dateParts with
  | [] => none
  | dp :: _ =>
      some
        { id := if item.doi = "" then "crossref_" ++ toString k else item.doi
          title := String.intercalate " " item.title
          source := "crossref"
          authors := String.intercalate "; "
            (item.author.map fun a => pyStrip (a.given ++ " " ++ a.family))
          abstract := match item.abstract with
            | some a => a
            | none => match item.containerTitle with
              | some ct => "Published in: " ++ String.intercalate ", " ct
              | none => ""
          url := if item.doi = "" then item.url else "https://doi.org/" ++ item.doi
          date := match dp with
            | y :: m :: d :: _ =>
                some (toString y ++ "-" ++ pad2 m ++ "-" ++ pad2 d)
            | _ => none
          doi := some item.doi
          journal := some (String.intercalate ", " (item.containerTitle.getD [])) }

/-- The item loop of `_parse_crossref_response` (lines 286-326): items that
raise are skipped, the rest appended (no post-parse date filter in this
variant; date bounds are passed to the API instead). -/
def parseCrossrefAux : List CrossrefItem → List SearchResult → List SearchResult
  | [], acc => acc
  | it :: rest, acc =>
      match mkCrossrefResult it acc.length with
      | none => parseCrossrefAux rest acc
      | some r => parseCrossrefAux rest (acc ++ [r])

/-- `TreasuryScraper._parse_crossref_response` (lines 280-331). -/
def parse_crossref_response (items : List CrossrefItem) : List SearchResult :=
  parseCrossrefAux items []

/-- The request parameters `_search_crossref` sends (lines 245-258):
domain terms injected, `rows` clamped to 100, date bounds appended to the
server-side `filter` parameter when truthy. -/
structure CrossrefRequest where
  query : String
  rows : Nat
  sort : String
  filter : String
deriving Repr, DecidableEq

/-- See `CrossrefRequest`. -/
def crossrefRequest (query : String) (max_results : Nat)
    (date_from date_to : Option String) : CrossrefRequest :=
  { query := query ++ " (treasury OR cash OR liquidity OR financial management)"
    rows := min max_results 100
    sort := "relevance"
    filter := "type:journal-article"
      ++ (if truthy date_from then ",from-pub-date:" ++ date_from.getD "" else "")
      ++ (if truthy date_to then ",until-pub-date:" ++ date_to.getD "" else "") }

/-- `TreasuryScraper._search_crossref` (lines 232-278). -/
def search_crossref (net : Transport (Option (List CrossrefItem))) (query : String)
    (max_results : Nat) (date_from date_to : Option String) : List SearchResult :=
  match net with
  | .timeout => []
  | .exn _ => []
  | .status code body =>
      if code = 200 then
        match body with
        | none => []
        | some items => parse_crossref_response items
      else []

/-! ### Google Scholar adapter (lines 155-230) -/

/-- One publication as returned by `scholarly.fill` (relevant fields only;
`authorId = none` models an absent `author_id` key, `pubYear = ""` models
an absent or empty `bib.pub_year`). -/
structure ScholarPub where
  title : String := ""
  authorNames : List String := []
  abstract : String := ""
  pubYear : String := ""
  pubUrl : String := ""
  eprintUrl : String := ""
  authorId : Option String := none
  numCitations : Nat := 0
  venue : String := ""
deriving Repr, DecidableEq

/-- The year value the scholar date filter sees: `pub_year` when truthy. -/
def scholarYearOpt (p : ScholarPub) : Option String :=
  if p.pubYear = "" then none else some p.pubYear

/-- Normalization of one Scholar publication (lines 199-212); `k` is the
running `count`, equal to `len(results)` at append time.  The identifier is
`"scholar_" + author_id` when the key is present, else `"scholar_" + count`. -/
def mkScholarResult (p : ScholarPub) (k : Nat) : SearchResult :=
  { id := "scholar_" ++ (match p.authorId with | some a => a | none => toString k)
    title := p.title
    source := "google_scholar"
    authors := String.intercalate ", " p.authorNames
    abstract := p.abstract
    url := if p.pubUrl = "" then p.eprintUrl else p.pubUrl
    date := scholarYearOpt p
    citations := some p.numCitations }

/-- The publication loop of `_search_google_scholar` (lines 176-221): stop
once `count >= max_results`, drop records failing the year filter, append
the rest. -/
def parseScholarAux (max_results : Nat) (date_from date_to : Option String) :
    List ScholarPub → List SearchResult → List SearchResult
  | [], acc => acc
  | p :: rest, acc =>
      if acc.length ≥ max_results then acc
      else if yearRangeDrop date_from date_to (scholarYearOpt p) then
        parseScholarAux max_results date_from date_to rest acc
      else
        parseScholarAux max_results date_from date_to rest
          (acc ++ [mkScholarResult p acc.length])

/-- `TreasuryScraper._search_google_scholar` (lines 155-230): empty list
when the `scholarly` library is unavailable or the search itself raises
(`net = none`), otherwise the publication loop. -/
def search_google_scholar (net : Option (List ScholarPub)) (query : String)
    (max_results : Nat) (date_from date_to : Option String) : List SearchResult :=
  match net with
  | none => []
  | some pubs => parseScholarAux max_results date_from date_to pubs []

/-! ### ResearchGate adapter (lines 333-441) -/

/-- The title anchor element of a ResearchGate publication item. -/
structure RGLink where
  text : String := ""
  href : Option String := none
deriving Repr, DecidableEq

/-- One `div.nova-legacy-v-publication-item` as selected by the scraper;
`none` fields model missing selector matches. -/
structure RGItem where
  titleLink : Option RGLink := none
  authorTexts : List String := []
  abstractText : Option String := none
  metaText : Option String := none
deriving Repr, DecidableEq

/-- Year extraction for a ResearchGate item (lines 398-406): first
`\d{4}` match in the stripped meta text, if any. -/
def rgYear (item : RGItem) : Option String :=
  match item.metaText with
  | none => none
  | some t => findYear4 (pyStrip t)

/-- Normalization of one ResearchGate item (lines 377-425); `k` is
`len(results)` at append time.  The identifier is always synthesized. -/
def mkRGResult (item : RGItem) (k : Nat) : SearchResult :=
  { id := "rg_" ++ toString k
    title := match item.titleLink with | some l => pyStrip l.text | none => ""
    source := "researchgate"
    authors := String.intercalate "; "
      ((item.authorTexts.take 5).filterMap fun s =>
        if pyStrip s = "" then none else some (pyStrip s))
    abstract :=
      let a := match item.abstractText with | some t => pyStrip t | none => ""
      if a = "" then "" else a.take 500
    url := match item.titleLink with
      | some l => match l.href with
        | some h => if h = "" then "" else "https://www.researchgate.net" ++ h
        | none => ""
      | none => ""
    date := rgYear item }

/-- The item loop of `_search_researchgate` (lines 376-430): drop records
failing the year filter, append the rest. -/
def parseRGAux (date_from date_to : Option String) :
    List RGItem → List SearchResult → List SearchResult
  | [], acc => acc
  | it :: rest, acc =>
      if yearRangeDrop date_from date_to (rgYear it) then
        parseRGAux date_from date_to rest acc
      else parseRGAux date_from date_to rest (acc ++ [mkRGResult it acc.length])

/-- `TreasuryScraper._search_researchgate` (lines 333-441): the item list is
truncated to `max_results` before the loop (`[:max_results]`, line 374);
empty list on non-200 status, timeout, any other exception, or page-level
parse failure. -/
def search_researchgate (net : Transport (Option (List RGItem))) (query : String)
    (max_results : Nat) (date_from date_to : Option String) : List SearchResult :=
  match net with
  | .timeout => []
  | .exn _ => []
  | .status code body =>
      if code = 200 then
        match body with
        | none => []
        | some items => parseRGAux date_from date_to (items.take max_results) []
      else []

/-! ### Scopus adapter (lines 443-571) -/

/-- One `tr.searchArea` row as selected by the Scopus scraper. -/
structure ScopusItem where
  titleLink : Option RGLink := none
  authorTexts : List String := []
  abstractText : Option String := none
  sourceTitle : Option String := none
deriving Repr, DecidableEq

/-- Year extraction for a Scopus row (lines 523-530): first `\d{4}` match
in the stripped `span.sourceTitle` text, if any. -/
def scopusYear (item : ScopusItem) : Option String :=
  match item.sourceTitle with
  | none => none
  | some t => findYear4 (pyStrip t)

/-- Normalization of one Scopus row (lines 499-555); `k` is `len(results)`
at append time.  The identifier is always synthesized. -/
def mkScopusResult (item : ScopusItem) (k : Nat) : SearchResult :=
  { id := "scopus_" ++ toString k
    title := match item.titleLink with | some l => pyStrip l.text | none => ""
    source := "scopus"
    authors := String.intercalate "; "
      ((item.authorTexts.take 5).filterMap fun s =>
        if pyStrip s = "" then none else some (pyStrip s))
    abstract :=
      let a := match item.abstractText with | some t => pyStrip t | none => ""
      if a = "" then "" else a.take 500
    url := match item.titleLink with
      | some l => match l.href with
        | some h => if h = "" then "" else "https://www.scopus.com" ++ h
        | none => ""
      | none => ""
    date := scopusYear item
    journal := some (match item.sourceTitle with | some t => pyStrip t | none => "") }

/-- The row loop of `_search_scopus` (lines 499-559). -/
def parseScopusAux (date_from date_to : Option String) :
    List ScopusItem → List SearchResult → List SearchResult
  | [], acc => acc
  | it :: rest, acc =>
      if yearRangeDrop date_from date_to (scopusYear it) then
        parseScopusAux date_from date_to rest acc
      else parseScopusAux date_from date_to rest (acc ++ [mkScopusResult it acc.length])

/-- `TreasuryScraper._search_scopus` (lines 443-571): rows truncated to
`max_results` before the loop; empty list on any failure. -/
def search_scopus (net : Transport (Option (List ScopusItem))) (query : String)
    (max_results : Nat) (date_from date_to : Option String) : List SearchResult :=
  match net with
  | .timeout => []
  | .exn _ => []
  | .status code body =>
      if code = 200 then
        match body with
        | none => []
        | some items => parseScopusAux date_from date_to (items.take max_results) []
      else []

/-! ### Search dispatch (`TreasuryScraper.search`, lines 28-62) -/

/-- One network environment per search: the transport outcome each adapter
would observe if dispatched. -/
structure NetworkEnv where
  arxiv : Transport (Option (List ArxivEntry))
  scholar : Option (List ScholarPub)
  crossref : Transport (Option (List CrossrefItem))
  researchgate : Transport (Option (List RGItem))
  scopus : Transport (Option (List ScopusItem))

/-- `TreasuryScraper.search`: dispatch on the source string; any unknown
source yields the empty list (line 62). -/
def search (env : NetworkEnv) (query source : String) (max_results : Nat)
    (date_from date_to : Option String) (language : String) : List SearchResult :=
  if source = "arxiv" then search_arxiv env.arxiv query max_results date_from date_to
  else if source = "google_scholar" then
    search_google_scholar env.scholar query max_results date_from date_to
  else if source = "crossref" then
    search_crossref env.crossref query max_results date_from date_to
  else if source = "researchgate" then
    search_researchgate env.researchgate query max_results date_from date_to
  else if source = "scopus" then
    search_scopus env.scopus query max_results date_from date_to
  else []

/-- The source fan-out of `execute_search` (api.py lines 155-164): one
`search` call per requested source, results concatenated in request order. -/
def merged_search (env : NetworkEnv) (query : String) (sources : List String)
    (max_results : Nat) (date_from date_to : Option String) (language : String) :
    List SearchResult :=
  (sources.map fun s => search env query s max_results date_from date_to language).flatten

/-! ### Orchestrator lifecycle (`api.py`, lines 91-178) -/

/-- One attempted write of the search status record to the persistence
collaborator: the initial `save_search_metadata` carrying a `status`
field, or an `update_search_status` call. -/
inductive StatusEvent where
  | create (status : String) (results_count : Nat)
  | update (status : String) (results_count : Nat) (error : Option String)
deriving Repr, DecidableEq

/-- The status string carried by an event. -/
def StatusEvent.statusOf : StatusEvent → String
  | .create s _ => s
  | .update s _ _ => s

/-- The status writes attempted by `execute_search` (lines 148-178): on a
successful results save, one `completed` update with the result count; if
the save raises (the only raising step — `scraper.search` and
`analyze_results` absorb their own errors and `update_search_status`
swallows its own), one `failed` update with the error string and count 0. -/
def execute_search_events (saveResults : Except String Unit) (resultCount : Nat) :
    List StatusEvent :=
  match saveResults with
  | .ok _ => [.update "completed" resultCount none]
  | .error e => [.update "failed" 0 (some e)]

/-- The status writes attempted across one search's lifetime:
`start_search` (lines 113-133) persists the metadata record with status
`"processing"` and count 0 (best-effort: `metadataSave`'s outcome is caught
and ignored, line 129-133), then schedules `execute_search`. -/
def orchestrator_events (metadataSave : Except String Unit)
    (saveResults : Except String Unit) (resultCount : Nat) : List StatusEvent :=
  [.create "processing" 0] ++ execute_search_events saveResults resultCount

/-! ## Helper lemmas -/

theorem enrichAll_length (oracle : Nat → ItemStep) (results : List SearchResult) :
    (enrichAll oracle results).length = results.length := by
  simp [enrichAll]

theorem analyze_results_length (oracle : Nat → ItemStep) (results : List SearchResult) :
    (analyze_results true oracle results).length = results.length := by
  simp [analyze_results, pySortDesc, enrichAll]

theorem enrichAll_get (oracle : Nat → ItemStep) (results : List SearchResult)
    (i : Nat) (h : i < results.length) (h2 : i < (enrichAll oracle results).length) :
    (enrichAll oracle results).get ⟨i, h2⟩ = enrichStep (results.get ⟨i, h⟩) (oracle i) := by
  simp [enrichAll]

theorem analyze_results_true_eq (oracle : Nat → ItemStep) (results : List SearchResult) :
    analyze_results true oracle results = pySortDesc (enrichAll oracle results) := rfl

theorem enrichStep_mem_analyze_results (oracle : Nat → ItemStep)
    (results : List SearchResult) (i : Nat) (h : i < results.length) :
    enrichStep (results.get ⟨i, h⟩) (oracle i) ∈ analyze_results true oracle results := by
  have h2 : i < (enrichAll oracle results).length := by
    rw [enrichAll_length]; exact h
  rw [← enrichAll_get oracle results i h h2, analyze_results_true_eq]
  simp only [pySortDesc, List.mem_mergeSort]
  exact List.get_mem _ _ h2

/-- `scoreDescLe` is transitive. -/
theorem scoreDescLe_trans (a b c : SearchResult) :
    scoreDescLe a b → scoreDescLe b c → scoreDescLe a c := by
  simp only [scoreDescLe, decide_eq_true_eq]
  exact fun h1 h2 => le_trans h2 h1

/-- `scoreDescLe` is total. -/
theorem scoreDescLe_total (a b : SearchResult) :
    scoreDescLe a b || scoreDescLe b a := by
  simp only [scoreDescLe, Bool.or_eq_true, decide_eq_true_eq]
  exact le_total (sortKey b) (sortKey a)

/-- The stable-sort filter property of `pySortDesc`: restricting the sorted
list to the elements of any one score value leaves them exactly in input
order. -/
theorem pySortDesc_filter_key (l : List SearchResult) (p : SearchResult → Bool)
    (hp : ∀ a b : SearchResult, p a → p b → scoreDescLe a b) :
    (pySortDesc l).filter p = l.filter p := by
  have hc : (l.filter p).Pairwise (fun a b => scoreDescLe a b) := by
    refine List.pairwise_of_forall_mem_list ?_
    intro a ha b hb
    exact hp a b (List.of_mem_filter ha) (List.of_mem_filter hb)
  have h1 : List.Sublist (l.filter p) (pySortDesc l) :=
    List.sublist_mergeSort scoreDescLe_trans scoreDescLe_total hc (List.filter_sublist l)
  have h2 : List.Sublist ((l.filter p).filter p) ((pySortDesc l).filter p) :=
    h1.filter p
  rw [List.filter_filter] at h2
  simp only [Bool.and_self] at h2
  have h4 : ((pySortDesc l).filter p).length = (l.filter p).length :=
    ((List.mergeSort_perm l scoreDescLe).filter p).length_eq
  exact (h2.eq_of_length h4.symm).symm

/-- The output of `pySortDesc` is non-increasing in the sort key. -/
theorem pySortDesc_pairwise (l : List SearchResult) :
    (pySortDesc l).Pairwise (fun a b => sortKey b ≤ sortKey a) := by
  have h := List.sorted_mergeSort scoreDescLe_trans scoreDescLe_total l
  exact h.imp fun hab => by
    simpa [scoreDescLe, decide_eq_true_eq] using hab

theorem str_append_ne_empty (a b : String) (ha : a.length ≠ 0) : a ++ b ≠ "" := by
  intro h
  have h0 : ("" : String).length = 0 := rfl
  have h2 : a.length + b.length = 0 := by
    simpa [String.length_append, h0] using congrArg String.length h
  omega

/-! Helper lemmas about the arXiv parser loop. -/

theorem parseArxivAux_length :
    ∀ (entries : List ArxivEntry) (acc : List SearchResult),
    (parseArxivAux entries acc).length = acc.length + entries.length := by
  intro entries
  induction entries with
  | nil => intro acc; simp [parseArxivAux]
  | cons e rest ih =>
      intro acc
      simp only [parseArxivAux]
      rw [ih]
      simp
      omega

theorem parseArxivAux_mem :
    ∀ (entries : List ArxivEntry) (acc : List SearchResult) (r : SearchResult),
    r ∈ parseArxivAux entries acc →
    r ∈ acc ∨ ∃ e k, e ∈ entries ∧ r = mkArxivResult e k := by
  intro entries
  induction entries with
  | nil => intro acc r hr; exact Or.inl (by simpa [parseArxivAux] using hr)
  | cons e rest ih =>
      intro acc r hr
      simp only [parseArxivAux] at hr
      rcases ih _ r hr with h | ⟨e', k, he, heq⟩
      · rcases List.mem_append.mp h with h' | h'
        · exact Or.inl h'
        · exact Or.inr ⟨e, acc.length, List.mem_cons_self _ _, by simpa using h'⟩
      · exact Or.inr ⟨e', k, List.mem_cons_of_mem _ he, heq⟩

theorem mkArxivResult_id_ne (e : ArxivEntry) (k : Nat) : (mkArxivResult e k).id ≠ "" := by
  simp only [mkArxivResult]
  by_cases hn : arxivNaturalId e = ""
  · rw [if_pos hn]; exact str_append_ne_empty _ _ (by decide)
  · rw [if_neg hn]; exact hn

/-! Helper lemmas about the Crossref parser loop. -/

theorem parseCrossrefAux_length :
    ∀ (items : List CrossrefItem) (acc : List SearchResult),
    (parseCrossrefAux items acc).length ≤ acc.length + items.length := by
  intro items
  induction items with
  | nil => intro acc; simp [parseCrossrefAux]
  | cons it rest ih =>
      intro acc
      simp only [parseCrossrefAux]
      cases h : mkCrossrefResult it acc.length with
      | none =>
          have := ih acc
          simp only [List.length_cons]
          omega
      | some r =>
          have h2 := ih (acc ++ [r])
          simp only [List.length_append, List.length_cons, List.length_nil] at h2 ⊢
          omega

theorem parseCrossrefAux_mem :
    ∀ (items : List CrossrefItem) (acc : List SearchResult) (r : SearchResult),
    r ∈ parseCrossrefAux items acc →
    r ∈ acc ∨ ∃ it k, it ∈ items ∧ mkCrossrefResult it k = some r := by
  intro items
  induction items with
  | nil => intro acc r hr; exact Or.inl (by simpa [parseCrossrefAux] using hr)
  | cons it rest ih =>
      intro acc r hr
      simp only [parseCrossrefAux] at hr
      cases h : mkCrossrefResult it acc.length with
      | none =>
          rw [h] at hr
          rcases ih _ r hr with h' | ⟨it', k, hi, heq⟩
          · exact Or.inl h'
          · exact Or.inr ⟨it', k, List.mem_cons_of_mem _ hi, heq⟩
      | some r' =>
          rw [h] at hr
          rcases ih _ r hr with h' | ⟨it', k, hi, heq⟩
          · rcases List.mem_append.mp h' with h'' | h''
            · exact Or.inl h''
            · refine Or.inr ⟨it, acc.length, List.mem_cons_self _ _, ?_⟩
              rw [h]
              exact congrArg some (List.mem_singleton.mp h'').symm
          · exact Or.inr ⟨it', k, List.mem_cons_of_mem _ hi, heq⟩

theorem mkCrossrefResult_id (item : CrossrefItem) (k : Nat) (r : SearchResult)
    (h : mkCrossrefResult item k = some r) :
    r.id = if item.doi = "" then "crossref_" ++ toString k else item.doi := by
  cases hdp : item.dateParts with
  | nil => simp [mkCrossrefResult, hdp] at h
  | cons dp rest =>
      simp only [mkCrossrefResult, hdp, Option.some_inj] at h
      rw [← h]

/-! Helper lemmas about the Google Scholar loop. -/

theorem parseScholarAux_mem_acc (mr : Nat) (df dt : Option String) :
    ∀ (pubs : List ScholarPub) (acc : List SearchResult) (x : SearchResult),
    x ∈ acc → x ∈ parseScholarAux mr df dt pubs acc := by
  intro pubs
  induction pubs with
  | nil => intro acc x hx; simpa [parseScholarAux] using hx
  | cons p rest ih =>
      intro acc x hx
      simp only [parseScholarAux]
      by_cases hb : acc.length ≥ mr
      · rw [if_pos hb]; exact hx
      · rw [if_neg hb]
        by_cases hd : yearRangeDrop df dt (scholarYearOpt p)
        · rw [if_pos hd]; exact ih acc x hx
        · rw [if_neg hd]; exact ih _ x (List.mem_append_left _ hx)

theorem parseScholarAux_mem (mr : Nat) (df dt : Option String) :
    ∀ (pubs : List ScholarPub) (acc : List SearchResult) (r : SearchResult),
    r ∈ parseScholarAux mr df dt pubs acc →
    r ∈ acc ∨ ∃ p k, p ∈ pubs ∧ yearRangeDrop df dt (scholarYearOpt p) = false
      ∧ r = mkScholarResult p k := by
  intro pubs
  induction pubs with
  | nil => intro acc r hr; exact Or.inl (by simpa [parseScholarAux] using hr)
  | cons p rest ih =>
      intro acc r hr
      simp only [parseScholarAux] at hr
      by_cases hb : acc.length ≥ mr
      · rw [if_pos hb] at hr; exact Or.inl hr
      · rw [if_neg hb] at hr
        by_cases hd : yearRangeDrop df dt (scholarYearOpt p)
        · rw [if_pos hd] at hr
          rcases ih acc r hr with h | ⟨p', k, hp, hdrop, heq⟩
          · exact Or.inl h
          · exact Or.inr ⟨p', k, List.mem_cons_of_mem _ hp, hdrop, heq⟩
        · rw [if_neg hd] at hr
          rcases ih _ r hr with h | ⟨p', k, hp, hdrop, heq⟩
          · rcases List.mem_append.mp h with h' | h'
            · exact Or.inl h'
            · refine Or.inr ⟨p, acc.length, List.mem_cons_self _ _, ?_, by simpa using h'⟩
              simpa using hd
          · exact Or.inr ⟨p', k, List.mem_cons_of_mem _ hp, hdrop, heq⟩

theorem parseScholarAux_keeps_dateless (mr : Nat) (df dt : Option String) :
    ∀ (pubs : List ScholarPub) (acc : List SearchResult) (p : ScholarPub),
    p ∈ pubs → acc.length + pubs.length ≤ mr → scholarYearOpt p = none →
    ∃ k, mkScholarResult p k ∈ parseScholarAux mr df dt pubs acc := by
  intro pubs
  induction pubs with
  | nil => intro acc p hp; simp at hp
  | cons q rest ih =>
      intro acc p hp hlen hy
      have hb : ¬ acc.length ≥ mr := by
        simp only [List.length_cons] at hlen
        omega
      rcases List.mem_cons.mp hp with rfl | hp'
      · have hd : yearRangeDrop df dt (scholarYearOpt p) = false := by
          rw [hy]; simp [yearRangeDrop]
        refine ⟨acc.length, ?_⟩
        simp only [parseScholarAux, if_neg hb, hd, if_neg (by simp : ¬ (false = true))]
        exact parseScholarAux_mem_acc mr df dt rest _ _
          (List.mem_append_right _ (List.mem_singleton.mpr rfl))
      · simp only [parseScholarAux, if_neg hb]
        by_cases hd : yearRangeDrop df dt (scholarYearOpt q)
        · rw [if_pos hd]
          refine ih acc p hp' ?_ hy
          simp only [List.length_cons] at hlen
          omega
        · rw [if_neg hd]
          refine ih _ p hp' ?_ hy
          simp only [List.length_append, List.length_cons, List.length_nil] at hlen ⊢
          omega

/-! Helper lemmas about the ResearchGate loop. -/

theorem parseRGAux_mem_acc (df dt : Option String) :
    ∀ (items : List RGItem) (acc : List SearchResult) (x : SearchResult),
    x ∈ acc → x ∈ parseRGAux df dt items acc := by
  intro items
  induction items with
  | nil => intro acc x hx; simpa [parseRGAux] using hx
  | cons it rest ih =>
      intro acc x hx
      simp only [parseRGAux]
      by_cases hd : yearRangeDrop df dt (rgYear it)
      · rw [if_pos hd]; exact ih acc x hx
      · rw [if_neg hd]; exact ih _ x (List.mem_append_left _ hx)

theorem parseRGAux_mem (df dt : Option String) :
    ∀ (items : List RGItem) (acc : List SearchResult) (r : SearchResult),
    r ∈ parseRGAux df dt items acc →
    r ∈ acc ∨ ∃ it k, it ∈ items ∧ yearRangeDrop df dt (rgYear it) = false
      ∧ r = mkRGResult it k := by
  intro items
  induction items with
  | nil => intro acc r hr; exact Or.inl (by simpa [parseRGAux] using hr)
  | cons it rest ih =>
      intro acc r hr
      simp only [parseRGAux] at hr
      by_cases hd : yearRangeDrop df dt (rgYear it)
      · rw [if_pos hd] at hr
        rcases ih acc r hr with h | ⟨it', k, hi, hdrop, heq⟩
        · exact Or.inl h
        · exact Or.inr ⟨it', k, List.mem_cons_of_mem _ hi, hdrop, heq⟩
      · rw [if_neg hd] at hr
        rcases ih _ r hr with h | ⟨it', k, hi, hdrop, heq⟩
        · rcases List.mem_append.mp h with h' | h'
          · exact Or.inl h'
          · refine Or.inr ⟨it, acc.length, List.mem_cons_self _ _, ?_, by simpa using h'⟩
            simpa using hd
        · exact Or.inr ⟨it', k, List.mem_cons_of_mem _ hi, hdrop, heq⟩

theorem parseRGAux_keeps_dateless (df dt : Option String) :
    ∀ (items : List RGItem) (acc : List SearchResult) (it : RGItem),
    it ∈ items → rgYear it = none →
    ∃ k, mkRGResult it k ∈ parseRGAux df dt items acc := by
  intro items
  induction items with
  | nil => intro acc it hit; simp at hit
  | cons a rest ih =>
      intro acc it hit hy
      rcases List.mem_cons.mp hit with rfl | hit'
      · have hd : yearRangeDrop df dt (rgYear it) = false := by
          rw [hy]; simp [yearRangeDrop]
        refine ⟨acc.length, ?_⟩
        simp only [parseRGAux, hd, if_neg (by simp : ¬ (false = true))]
        exact parseRGAux_mem_acc df dt rest _ _
          (List.mem_append_right _ (List.mem_singleton.mpr rfl))
      · simp only [parseRGAux]
        by_cases hd : yearRangeDrop df dt (rgYear a)
        · rw [if_pos hd]; exact ih acc it hit' hy
        · rw [if_neg hd]; exact ih _ it hit' hy

theorem parseRGAux_ids (df dt : Option String) :
    ∀ (items : List RGItem) (acc : List SearchResult),
    (acc.map fun r => r.id) = ((List.range acc.length).map fun i => "rg_" ++ toString i) →
    ((parseRGAux df dt items acc).map fun r => r.id)
      = ((List.range (parseRGAux df dt items acc).length).map
          fun i => "rg_" ++ toString i) := by
  intro items
  induction items with
  | nil => intro acc h; simpa [parseRGAux] using h
  | cons it rest ih =>
      intro acc h
      simp only [parseRGAux]
      by_cases hd : yearRangeDrop df dt (rgYear it)
      · rw [if_pos hd]; exact ih acc h
      · rw [if_neg hd]
        refine ih _ ?_
        simp [List.range_succ, h, mkRGResult]

/-! Helper lemmas about the Scopus loop. -/

theorem parseScopusAux_mem_acc (df dt : Option String) :
    ∀ (items : List ScopusItem) (acc : List SearchResult) (x : SearchResult),
    x ∈ acc → x ∈ parseScopusAux df dt items acc := by
  intro items
  induction items with
  | nil => intro acc x hx; simpa [parseScopusAux] using hx
  | cons it rest ih =>
      intro acc x hx
      simp only [parseScopusAux]
      by_cases hd : yearRangeDrop df dt (scopusYear it)
      · rw [if_pos hd]; exact ih acc x hx
      · rw [if_neg hd]; exact ih _ x (List.mem_append_left _ hx)

theorem parseScopusAux_mem (df dt : Option String) :
    ∀ (items : List ScopusItem) (acc : List SearchResult) (r : SearchResult),
    r ∈ parseScopusAux df dt items acc →
    r ∈ acc ∨ ∃ it k, it ∈ items ∧ yearRangeDrop df dt (scopusYear it) = false
      ∧ r = mkScopusResult it k := by
  intro items
  induction items with
  | nil => intro acc r hr; exact Or.inl (by simpa [parseScopusAux] using hr)
  | cons it rest ih =>
      intro acc r hr
      simp only [parseScopusAux] at hr
      by_cases hd : yearRangeDrop df dt (scopusYear it)
      · rw [if_pos hd] at hr
        rcases ih acc r hr with h | ⟨it', k, hi, hdrop, heq⟩
        · exact Or.inl h
        · exact Or.inr ⟨it', k, List.mem_cons_of_mem _ hi, hdrop, heq⟩
      · rw [if_neg hd] at hr
        rcases ih _ r hr with h | ⟨it', k, hi, hdrop, heq⟩
        · rcases List.mem_append.mp h with h' | h'
          · exact Or.inl h'
          · refine Or.inr ⟨it, acc.length, List.mem_cons_self _ _, ?_, by simpa using h'⟩
            simpa using hd
        · exact Or.inr ⟨it', k, List.mem_cons_of_mem _ hi, hdrop, heq⟩

theorem parseScopusAux_keeps_dateless (df dt : Option String) :
    ∀ (items : List ScopusItem) (acc : List SearchResult) (it : ScopusItem),
    it ∈ items → scopusYear it = none →
    ∃ k, mkScopusResult it k ∈ parseScopusAux df dt items acc := by
  intro items
  induction items with
  | nil => intro acc it hit; simp at hit
  | cons a rest ih =>
      intro acc it hit hy
      rcases List.mem_cons.mp hit with rfl | hit'
      · have hd : yearRangeDrop df dt (scopusYear it) = false := by
          rw [hy]; simp [yearRangeDrop]
        refine ⟨acc.length, ?_⟩
        simp only [parseScopusAux, hd, if_neg (by simp : ¬ (false = true))]
        exact parseScopusAux_mem_acc df dt rest _ _
          (List.mem_append_right _ (List.mem_singleton.mpr rfl))
      · simp only [parseScopusAux]
        by_cases hd : yearRangeDrop df dt (scopusYear a)
        · rw [if_pos hd]; exact ih acc it hit' hy
        · rw [if_neg hd]; exact ih _ it hit' hy

theorem parseScopusAux_ids (df dt : Option String) :
    ∀ (items : List ScopusItem) (acc : List SearchResult),
    (acc.map fun r => r.id)
      = ((List.range acc.length).map fun i => "scopus_" ++ toString i) →
    ((parseScopusAux df dt items acc).map fun r => r.id)
      = ((List.range (parseScopusAux df dt items acc).length).map
          fun i => "scopus_" ++ toString i) := by
  intro items
  induction items with
  | nil => intro acc h; simpa [parseScopusAux] using h
  | cons it rest ih =>
      intro acc h
      simp only [parseScopusAux]
      by_cases hd : yearRangeDrop df dt (scopusYear it)
      · rw [if_pos hd]; exact ih acc h
      · rw [if_neg hd]
        refine ih _ ?_
        simp [List.range_succ, h, mkScopusResult]

/-! Unfolding lemmas for the adapters on a successful transport. -/

theorem search_arxiv_200 (entries : List ArxivEntry) (q : String) (mr : Nat)
    (df dt : Option String) :
    search_arxiv (.status 200 (some entries)) q mr df dt = parse_arxiv_response entries := rfl

theorem search_crossref_200 (items : List CrossrefItem) (q : String) (mr : Nat)
    (df dt : Option String) :
    search_crossref (.status 200 (some items)) q mr df dt
      = parse_crossref_response items := rfl

theorem search_researchgate_200 (items : List RGItem) (q : String) (mr : Nat)
    (df dt : Option String) :
    search_researchgate (.status 200 (some items)) q mr df dt
      = parseRGAux df dt (items.take mr) [] := rfl

theorem search_scopus_200 (items : List ScopusItem) (q : String) (mr : Nat)
    (df dt : Option String) :
    search_scopus (.status 200 (some items)) q mr df dt
      = parseScopusAux df dt (items.take mr) [] := rfl

theorem search_google_scholar_some (pubs : List ScholarPub) (q : String) (mr : Nat)
    (df dt : Option String) :
    search_google_scholar (some pubs) q mr df dt
      = parseScholarAux mr df dt pubs [] := rfl

/-- A transport outcome representing a transport-level failure: timeout,
connection error / other exception, or a non-200 HTTP status. -/
def transportFailed {β : Type} (t : Transport β) : Prop :=
  t = .timeout ∨ (∃ e, t = .exn e) ∨ ∃ c b, t = .status c b ∧ c ≠ 200

theorem search_arxiv_failed (t : Transport (Option (List ArxivEntry)))
    (hf : transportFailed t) (q : String) (mr : Nat) (df dt : Option String) :
    search_arxiv t q mr df dt = [] := by
  rcases hf with rfl | ⟨e, rfl⟩ | ⟨c, b, rfl, hc⟩
  · rfl
  · rfl
  · simp [search_arxiv, hc]

theorem search_crossref_failed (t : Transport (Option (List CrossrefItem)))
    (hf : transportFailed t) (q : String) (mr : Nat) (df dt : Option String) :
    search_crossref t q mr df dt = [] := by
  rcases hf with rfl | ⟨e, rfl⟩ | ⟨c, b, rfl, hc⟩
  · rfl
  · rfl
  · simp [search_crossref, hc]

theorem search_researchgate_failed (t : Transport (Option (List RGItem)))
    (hf : transportFailed t) (q : String) (mr : Nat) (df dt : Option String) :
    search_researchgate t q mr df dt = [] := by
  rcases hf with rfl | ⟨e, rfl⟩ | ⟨c, b, rfl, hc⟩
  · rfl
  · rfl
  · simp [search_researchgate, hc]

theorem search_scopus_failed (t : Transport (Option (List ScopusItem)))
    (hf : transportFailed t) (q : String) (mr : Nat) (df dt : Option String) :
    search_scopus t q mr df dt = [] := by
  rcases hf with rfl | ⟨e, rfl⟩ | ⟨c, b, rfl, hc⟩
  · rfl
  · rfl
  · simp [search_scopus, hc]

/-! ## Claims -/

/-- Concrete pre-enrichment records used in scenarios. -/
def sample (n : String) : SearchResult :=
  { id := n, title := "T", source := "arxiv", authors := "",
    abstract := "A", url := "", date := none }

/-- The per-index step oracle of the C1 scenario: the first item's AI
scoring call raises, the second item's loop body raises. -/
def c1Oracle : Nat → ItemStep :=
  fun i => if i = 0 then .call (.fail "boom") else .bodyError "crash"

/-- The input batch of the C1 scenario. -/
def c1Results : List SearchResult := [sample "a1", sample "a2"]

/-- C1 counterexample: enriching a single-item batch whose AI scoring call
fails yields `relevance_score = 0.5` (the default written inside
`_analyze_single_result`), not `0.0` as the claim states. -/
theorem C1_counterexample :
    ((analyze_results true (fun _ => .call (.fail "boom")) [sample "a1"]).map
        fun r => r.relevanceScore) = [some (1/2 : ℚ)]
    ∧ (1/2 : ℚ) ≠ 0 := by
  constructor
  · simp [analyze_results, pySortDesc, enrichAll, enrichStep, analyzeSingleResult, sample]
  · norm_num

/-- C1 (amended): with the scoring service configured, enrichment returns
one output per input item; an item whose AI scoring call fails receives
`relevance_score = 0.5` together with an error annotation, an empty topic
list and placeholder insights; an item whose enrichment loop body itself
raises receives `relevance_score = 0.0` and a bare error annotation.  In
every case the (annotated) item is present in the returned batch. -/
theorem C1_amended_ok (oracle : Nat → ItemStep) (results : List SearchResult) :
    (analyze_results true oracle results).length = results.length
    ∧ (∀ (i : Nat) (h : i < results.length) (e : String),
        oracle i = .call (.fail e) →
        enrichStep (results.get ⟨i, h⟩) (oracle i) =
          { results.get ⟨i, h⟩ with
              relevanceScore := some (1/2)
              aiAnalysis := some (.full
                { relevance_score := 1/2
                  treasury_topics := []
                  key_insights := "Analysis unavailable"
                  geographic_relevance := none
                  error := some e }) }
        ∧ enrichStep (results.get ⟨i, h⟩) (oracle i) ∈ analyze_results true oracle results)
    ∧ (∀ (i : Nat) (h : i < results.length) (e : String),
        oracle i = .bodyError e →
        enrichStep (results.get ⟨i, h⟩) (oracle i) =
          { results.get ⟨i, h⟩ with
              relevanceScore := some 0
              aiAnalysis := some (.errorOnly e) }
        ∧ enrichStep (results.get ⟨i, h⟩) (oracle i) ∈ analyze_results true oracle results) := by
  refine ⟨analyze_results_length oracle results, ?_, ?_⟩
  · intro i h e he
    refine ⟨?_, enrichStep_mem_analyze_results oracle results i h⟩
    rw [he]
    simp [enrichStep, analyzeSingleResult]
  · intro i h e he
    refine ⟨?_, enrichStep_mem_analyze_results oracle results i h⟩
    rw [he]
    simp [enrichStep]

/-- Witness for `C1_amended_ok` at the concrete C1 scenario. -/
theorem C1_amended_witness :
    (analyze_results true c1Oracle c1Results).length = c1Results.length
    ∧ enrichStep (c1Results.get ⟨0, by decide⟩) (c1Oracle 0) ∈
        analyze_results true c1Oracle c1Results
    ∧ enrichStep (c1Results.get ⟨1, by decide⟩) (c1Oracle 1) ∈
        analyze_results true c1Oracle c1Results := by
  have h := C1_amended_ok c1Oracle c1Results
  exact ⟨h.1, (h.2.1 0 (by decide) "boom" rfl).2, (h.2.2 1 (by decide) "crash" rfl).2⟩

/-- A network environment where every transport fails. -/
def failEnv : NetworkEnv :=
  { arxiv := .timeout, scholar := none, crossref := .timeout,
    researchgate := .timeout, scopus := .timeout }

/-- A Scholar publication with `author_id` key present and equal to `"A1"`
(two publications by the same author share this value). -/
def c2Pub (t : String) : ScholarPub := { title := t, authorId := some "A1" }

/-- The C2 scenario: one requested source (google_scholar) whose search
yields two publications by the same author. -/
def c2Env : NetworkEnv := { failEnv with scholar := some [c2Pub "P1", c2Pub "P2"] }

/-- C2 counterexample: two Google Scholar publications by the same author
receive the same identifier `"scholar_A1"` (the id is derived from
`author_id`, not from the record), so identifiers are not unique within the
search's result set. -/
theorem C2_counterexample :
    ((merged_search c2Env "q" ["google_scholar"] 10 none none "en").map fun r => r.id)
      = ["scholar_A1", "scholar_A1"]
    ∧ ¬ ((merged_search c2Env "q" ["google_scholar"] 10 none none "en").map
          fun r => r.id).Nodup := by
  constructor
  · decide
  · decide

/-- C2 (amended): every identifier produced by any adapter variant is
non-empty; when a source supplies no natural key the identifier is
synthesized as `"<source>_<ordinal>"` from the record's position (for the
researchgate and scopus variants the identifier is always exactly the
record's position in the result set); but uniqueness within a result set is
not guaranteed — Google Scholar identifiers derive from `author_id`, which
repeats across publications of one author (see the counterexample). -/
theorem C2_amended_ok :
    (∀ (entries : List ArxivEntry) (r : SearchResult),
        r ∈ parse_arxiv_response entries → r.id ≠ "")
    ∧ (∀ (items : List CrossrefItem) (r : SearchResult),
        r ∈ parse_crossref_response items → r.id ≠ "")
    ∧ (∀ (q : String) (mr : Nat) (df dt : Option String) (pubs : List ScholarPub)
        (r : SearchResult),
        r ∈ search_google_scholar (some pubs) q mr df dt → r.id ≠ "")
    ∧ (∀ (q : String) (mr : Nat) (df dt : Option String) (items : List RGItem),
        ((search_researchgate (.status 200 (some items)) q mr df dt).map fun r => r.id)
          = ((List.range
                (search_researchgate (.status 200 (some items)) q mr df dt).length).map
              fun i => "rg_" ++ toString i))
    ∧ (∀ (q : String) (mr : Nat) (df dt : Option String) (items : List ScopusItem),
        ((search_scopus (.status 200 (some items)) q mr df dt).map fun r => r.id)
          = ((List.range (search_scopus (.status 200 (some items)) q mr df dt).length).map
              fun i => "scopus_" ++ toString i))
    ∧ (∀ (e : ArxivEntry) (k : Nat), arxivNaturalId e = "" →
        (mkArxivResult e k).id = "arxiv_" ++ toString k)
    ∧ (∀ (item : CrossrefItem) (k : Nat) (r : SearchResult), item.doi = "" →
        mkCrossrefResult item k = some r → r.id = "crossref_" ++ toString k)
    ∧ (∀ (p : ScholarPub) (k : Nat), p.authorId = none →
        (mkScholarResult p k).id = "scholar_" ++ toString k) := by
  refine ⟨?_, ?_, ?_, ?_, ?_, ?_, ?_, ?_⟩
  · intro entries r hr
    rcases parseArxivAux_mem entries [] r hr with h | ⟨e, k, _, rfl⟩
    · simp at h
    · exact mkArxivResult_id_ne e k
  · intro items r hr
    rcases parseCrossrefAux_mem items [] r hr with h | ⟨it, k, _, hmk⟩
    · simp at h
    · rw [mkCrossrefResult_id it k r hmk]
      by_cases hd : it.doi = ""
      · rw [if_pos hd]; exact str_append_ne_empty _ _ (by decide)
      · rw [if_neg hd]; exact hd
  · intro q mr df dt pubs r hr
    rw [search_google_scholar_some] at hr
    rcases parseScholarAux_mem mr df dt pubs [] r hr with h | ⟨p, k, _, _, rfl⟩
    · simp at h
    · exact str_append_ne_empty _ _ (by decide)
  · intro q mr df dt items
    rw [search_researchgate_200]
    exact parseRGAux_ids df dt (items.take mr) [] (by simp)
  · intro q mr df dt items
    rw [search_scopus_200]
    exact parseScopusAux_ids df dt (items.take mr) [] (by simp)
  · intro e k h
    simp [mkArxivResult, h]
  · intro item k r hd hmk
    rw [mkCrossrefResult_id item k r hmk, if_pos hd]
  · intro p k h
    simp [mkScholarResult, h]

/-- An arXiv entry with no id URL (no natural key). -/
def c2ArxivEntry : ArxivEntry := { title := some "Paper One" }

/-- A Crossref item with no DOI (no natural key). -/
def c2CrossrefItem : CrossrefItem := { title := ["Study X"] }

/-- Witness for `C2_amended_ok` at concrete no-natural-key records. -/
theorem C2_amended_witness :
    (mkArxivResult c2ArxivEntry 0).id ≠ ""
    ∧ (mkArxivResult c2ArxivEntry 0).id = "arxiv_" ++ toString 0
    ∧ (mkScholarResult { title := "P" } 3).id = "scholar_" ++ toString 3
    ∧ (mkCrossrefResult c2CrossrefItem 2).map (fun r => r.id)
        = some ("crossref_" ++ toString 2) := by
  have h := C2_amended_ok
  refine ⟨h.1 [c2ArxivEntry] _ (by decide), h.2.2.2.2.2.1 c2ArxivEntry 0 (by decide),
    h.2.2.2.2.2.2.2 { title := "P" } 3 rfl, ?_⟩
  cases hmk : mkCrossrefResult c2CrossrefItem 2 with
  | none => exact absurd hmk (by decide)
  | some r => simp [h.2.2.2.2.2.2.1 c2CrossrefItem 2 r rfl hmk]

/-- The arXiv entry of the C3 scenario: published 2021-05-01. -/
def c3Entry : ArxivEntry :=
  { title := some "Treasury paper", summary := some "S", authorNames := ["Ann"],
    published := some "2021-05-01T00:00:00Z",
    idUrl := some "http://arxiv.org/abs/2101.01234v1" }

/-- C3 counterexample: with `dateFrom = "2022-01-01"` and
`dateTo = "2022-12-31"`, the arXiv variant still returns a record whose
extracted year is "2021" — this variant applies no post-parse date filter at
all, even though "2021" would be dropped by the year-range filter the other
variants use. -/
theorem C3_counterexample :
    ((search_arxiv (.status 200 (some [c3Entry])) "liquidity" 10
        (some "2022-01-01") (some "2022-12-31")).map fun r => r.date)
      = [some "2021-05-01"]
    ∧ ("2021-05-01".take 4) = "2021"
    ∧ yearRangeDrop (some "2022-01-01") (some "2022-12-31") (some "2021") = true := by
  refine ⟨?_, ?_, ?_⟩
  · decide
  · decide
  · decide

/-- C3 (amended): the google_scholar, researchgate and scopus variants do
apply the post-parse year filter — every record they return passes
`yearRangeDrop` on its extracted year; the arxiv variant applies no date
filter (the bounds are ignored, see the counterexample), and the crossref
variant forwards the bounds to the API inside the request's `filter`
parameter instead of filtering post-parse. -/
theorem C3_amended_ok (df dt : Option String) (q : String) (mr : Nat) :
    (∀ (net : Option (List ScholarPub)) (r : SearchResult),
        r ∈ search_google_scholar net q mr df dt → yearRangeDrop df dt r.date = false)
    ∧ (∀ (net : Transport (Option (List RGItem))) (r : SearchResult),
        r ∈ search_researchgate net q mr df dt → yearRangeDrop df dt r.date = false)
    ∧ (∀ (net : Transport (Option (List ScopusItem))) (r : SearchResult),
        r ∈ search_scopus net q mr df dt → yearRangeDrop df dt r.date = false)
    ∧ (crossrefRequest q mr df dt).filter
        = "type:journal-article"
          ++ (if truthy df then ",from-pub-date:" ++ df.getD "" else "")
          ++ (if truthy dt then ",until-pub-date:" ++ dt.getD "" else "") := by
  refine ⟨?_, ?_, ?_, rfl⟩
  · intro net r hr
    cases net with
    | none => simp [search_google_scholar] at hr
    | some pubs =>
        rw [search_google_scholar_some] at hr
        rcases parseScholarAux_mem mr df dt pubs [] r hr with h | ⟨p, k, _, hdrop, rfl⟩
        · simp at h
        · simpa [mkScholarResult] using hdrop
  · intro net r hr
    cases net with
    | timeout => simp [search_researchgate] at hr
    | exn e => simp [search_researchgate] at hr
    | status c body =>
        simp only [search_researchgate] at hr
        by_cases hc : c = 200
        · rw [if_pos hc] at hr
          cases body with
          | none => simp at hr
          | some items =>
              rcases parseRGAux_mem df dt (items.take mr) [] r hr with h | ⟨it, k, _, hdrop, rfl⟩
              · simp at h
              · simpa [mkRGResult] using hdrop
        · rw [if_neg hc] at hr; simp at hr
  · intro net r hr
    cases net with
    | timeout => simp [search_scopus] at hr
    | exn e => simp [search_scopus] at hr
    | status c body =>
        simp only [search_scopus] at hr
        by_cases hc : c = 200
        · rw [if_pos hc] at hr
          cases body with
          | none => simp at hr
          | some items =>
              rcases parseScopusAux_mem df dt (items.take mr) [] r hr with h | ⟨it, k, _, hdrop, rfl⟩
              · simp at h
              · simpa [mkScopusResult] using hdrop
        · rw [if_neg hc] at hr; simp at hr

/-- A ResearchGate item whose extracted year is 2022. -/
def c3RgItem : RGItem := { titleLink := some { text := "T" }, metaText := some "Jan 2022" }

/-- A Scopus row whose extracted year is 2022. -/
def c3ScopusItem : ScopusItem := { sourceTitle := some "Journal 2022" }

/-- A Scholar publication from 2022. -/
def c3Pub : ScholarPub := { title := "P", pubYear := "2022" }

/-- Witness for `C3_amended_ok`: records returned under the 2022 date range
pass the year filter. -/
theorem C3_amended_witness :
    yearRangeDrop (some "2022-01-01") (some "2022-12-31") (mkScholarResult c3Pub 0).date
      = false
    ∧ yearRangeDrop (some "2022-01-01") (some "2022-12-31") (mkRGResult c3RgItem 0).date
      = false
    ∧ yearRangeDrop (some "2022-01-01") (some "2022-12-31")
        (mkScopusResult c3ScopusItem 0).date = false := by
  have h := C3_amended_ok (some "2022-01-01") (some "2022-12-31") "q" 10
  exact ⟨h.1 (some [c3Pub]) _ (by decide),
    h.2.1 (.status 200 (some [c3RgItem])) _ (by decide),
    h.2.2.1 (.status 200 (some [c3ScopusItem])) _ (by decide)⟩

/-- C5: the search dispatch never produces anything but a (possibly empty)
list; an unknown source yields the empty list, and each adapter variant
yields the empty list on any transport failure (timeout, exception,
non-200 status; for the scholarly-based variant, library failure). -/
theorem C5_ok (env : NetworkEnv) (q : String) (mr : Nat)
    (df dt : Option String) (lang : String) :
    (∀ src : String,
        src ∉ (["arxiv", "google_scholar", "crossref", "researchgate", "scopus"] :
          List String) →
        search env q src mr df dt lang = [])
    ∧ (transportFailed env.arxiv → search env q "arxiv" mr df dt lang = [])
    ∧ (env.scholar = none → search env q "google_scholar" mr df dt lang = [])
    ∧ (transportFailed env.crossref → search env q "crossref" mr df dt lang = [])
    ∧ (transportFailed env.researchgate → search env q "researchgate" mr df dt lang = [])
    ∧ (transportFailed env.scopus → search env q "scopus" mr df dt lang = []) := by
  refine ⟨?_, ?_, ?_, ?_, ?_, ?_⟩
  · intro src h
    simp only [List.mem_cons, List.not_mem_nil, or_false, not_or] at h
    obtain ⟨h1, h2, h3, h4, h5⟩ := h
    simp [search, h1, h2, h3, h4, h5]
  · intro hf
    exact search_arxiv_failed env.arxiv hf q mr df dt
  · intro hs
    show search_google_scholar env.scholar q mr df dt = []
    rw [hs]
    rfl
  · intro hf
    exact search_crossref_failed env.crossref hf q mr df dt
  · intro hf
    exact search_researchgate_failed env.researchgate hf q mr df dt
  · intro hf
    exact search_scopus_failed env.scopus hf q mr df dt

/-- Witness for `C5_ok` at an all-failing environment and an unknown
source. -/
theorem C5_witness :
    search failEnv "q" "pubmed" 10 none none "en" = []
    ∧ search failEnv "q" "arxiv" 10 none none "en" = []
    ∧ search failEnv "q" "google_scholar" 10 none none "en" = []
    ∧ search failEnv "q" "crossref" 10 none none "en" = []
    ∧ search failEnv "q" "researchgate" 10 none none "en" = []
    ∧ search failEnv "q" "scopus" 10 none none "en" = [] := by
  have h := C5_ok failEnv "q" 10 none none "en"
  exact ⟨h.1 "pubmed" (by decide), h.2.1 (Or.inl rfl), h.2.2.1 rfl,
    h.2.2.2.1 (Or.inl rfl), h.2.2.2.2.1 (Or.inl rfl), h.2.2.2.2.2 (Or.inl rfl)⟩

/-- C6 counterexample: the status trace of a successful search is
`["processing", "completed"]` — the record is created directly in the
"processing" state; no "pending" state is ever written, so the lifecycle
claimed as `pending → processing → completed|failed` does not occur. -/
theorem C6_counterexample :
    ((orchestrator_events (.ok ()) (.ok ()) 3).map StatusEvent.statusOf)
      = ["processing", "completed"]
    ∧ "pending" ∉ ((orchestrator_events (.ok ()) (.ok ()) 3).map StatusEvent.statusOf) := by
  constructor
  · decide
  · decide

/-- C6 (amended): each search's status record is created once with status
"processing" (count 0) and then updated exactly once to a terminal status:
"completed" with the final result count when the results-persistence write
succeeds, or "failed" with the error string and result count 0 when that
write raises (the only unhandled-error source in `execute_search`).  No
"pending" state exists and no transition is reversible. -/
theorem C6_amended_ok (metadataSave saveResults : Except String Unit) (resultCount : Nat) :
    (∀ u, saveResults = .ok u →
        orchestrator_events metadataSave saveResults resultCount
          = [.create "processing" 0, .update "completed" resultCount none])
    ∧ (∀ e, saveResults = .error e →
        orchestrator_events metadataSave saveResults resultCount
          = [.create "processing" 0, .update "failed" 0 (some e)]) := by
  constructor
  · intro u h; subst h; rfl
  · intro e h; subst h; rfl

/-- Witness for `C6_amended_ok`: a successful run and a run whose final
persistence write raises. -/
theorem C6_amended_witness :
    orchestrator_events (.ok ()) (.ok ()) 3
      = [.create "processing" 0, .update "completed" 3 none]
    ∧ orchestrator_events (.ok ()) (.error "db down") 3
      = [.create "processing" 0, .update "failed" 0 (some "db down")] := by
  exact ⟨(C6_amended_ok (.ok ()) (.ok ()) 3).1 () rfl,
    (C6_amended_ok (.ok ()) (.error "db down") 3).2 "db down" rfl⟩

/-- C4: with the scoring service configured, the batch returned by
`analyze_results` is non-increasing in `relevance_score`, and for every
score value the items carrying that value appear in exactly their pre-sort
(enrichment-loop) order — the stable-sort property. -/
theorem C4_ok (oracle : Nat → ItemStep) (results : List SearchResult) :
    (analyze_results true oracle results).Pairwise
      (fun a b => sortKey b ≤ sortKey a)
    ∧ ∀ v : ℚ,
        (analyze_results true oracle results).filter (fun r => decide (sortKey r = v))
          = (enrichAll oracle results).filter (fun r => decide (sortKey r = v)) := by
  constructor
  · simpa [analyze_results] using pySortDesc_pairwise (enrichAll oracle results)
  · intro v
    simp only [analyze_results, if_pos rfl]
    refine pySortDesc_filter_key (enrichAll oracle results) _ ?_
    intro a b ha hb
    simp only [decide_eq_true_eq] at ha hb
    simp [scoreDescLe, ha, hb]

/-- C7: the arXiv and Crossref adapters clamp the requested count to the
external API ceiling of 100 in the request they send (`max_results` /
`rows` = `min(requested, 100)`), and parsing adds no records beyond the
response's entries; hence whenever the external service honors the
requested cap, the returned sequence never exceeds `min(requested, 100)`. -/
theorem C7_ok (q : String) (mr : Nat) (df dt : Option String)
    (entries : List ArxivEntry) (items : List CrossrefItem)
    (ha : entries.length ≤ (arxivRequest q mr).max_results)
    (hc : items.length ≤ (crossrefRequest q mr df dt).rows) :
    (search_arxiv (.status 200 (some entries)) q mr df dt).length ≤ min mr 100
    ∧ (search_crossref (.status 200 (some items)) q mr df dt).length ≤ min mr 100 := by
  constructor
  · rw [search_arxiv_200]
    show (parseArxivAux entries []).length ≤ min mr 100
    rw [parseArxivAux_length entries []]
    have ha2 : entries.length ≤ min mr 100 := ha
    simpa using ha2
  · rw [search_crossref_200]
    show (parseCrossrefAux items []).length ≤ min mr 100
    refine le_trans (parseCrossrefAux_length items []) ?_
    have hc2 : items.length ≤ min mr 100 := hc
    simpa using hc2

/-- Two arXiv entries (within the ceiling). -/
def c7Entries : List ArxivEntry := [{ title := some "Paper One" }, { title := some "Paper Two" }]

/-- Two Crossref items (within the ceiling). -/
def c7Items : List CrossrefItem := [{ title := ["Study X"] }, { title := ["Study Z"] }]

/-- Witness for `C7_ok` at a requested count of 150 (above the ceiling). -/
theorem C7_witness :
    (search_arxiv (.status 200 (some c7Entries)) "q" 150 none none).length ≤ min 150 100
    ∧ (search_crossref (.status 200 (some c7Items)) "q" 150 none none).length
        ≤ min 150 100 := by
  exact C7_ok "q" 150 none none c7Entries c7Items (by decide) (by decide)

theorem enhance_true_ok_eq (txt original_query : String) :
    enhance_search_query true (.ok txt) original_query
      = if 2 * (pyStrip txt).length < original_query.length then original_query
        else pyStrip txt := rfl

/-- C8: the query enhancer returns the original query unchanged when the
service is unconfigured, when the call errors, and when the (stripped)
candidate's length is less than half the original query's length
(`len(candidate) < len(original) * 0.5`, i.e. `2·len(candidate) <
len(original)`); otherwise it returns the stripped candidate. -/
theorem C8_ok (original_query : String) :
    (∀ call : Except String String,
        enhance_search_query false call original_query = original_query)
    ∧ (∀ e : String,
        enhance_search_query true (.error e) original_query = original_query)
    ∧ (∀ txt : String, 2 * (pyStrip txt).length < original_query.length →
        enhance_search_query true (.ok txt) original_query = original_query)
    ∧ (∀ txt : String, ¬ 2 * (pyStrip txt).length < original_query.length →
        enhance_search_query true (.ok txt) original_query = pyStrip txt) := by
  refine ⟨?_, ?_, ?_, ?_⟩
  · intro call; rfl
  · intro e; rfl
  · intro txt h; rw [enhance_true_ok_eq, if_pos h]
  · intro txt h; rw [enhance_true_ok_eq, if_neg h]

/-- Witness for `C8_ok`: a degenerate short candidate falls back, an
adequate candidate is returned stripped. -/
theorem C8_witness :
    enhance_search_query false (.ok "anything") "corporate treasury" = "corporate treasury"
    ∧ enhance_search_query true (.error "quota") "corporate treasury" = "corporate treasury"
    ∧ enhance_search_query true (.ok " ok ") "corporate treasury" = "corporate treasury"
    ∧ enhance_search_query true (.ok " corporate treasury cash liquidity ")
        "corporate treasury" = "corporate treasury cash liquidity" := by
  have h := C8_ok "corporate treasury"
  refine ⟨h.1 (.ok "anything"), h.2.1 "quota", h.2.2.1 " ok " (by decide), ?_⟩
  rw [h.2.2.2 " corporate treasury cash liquidity " (by decide)]
  decide

/-- C9: a Crossref item that parses (non-empty `date-parts` chain), has no
`abstract` key and has a `container-title` list yields a result whose
abstract is `"Published in: "` followed by the comma-joined
container-title entries. -/
theorem C9_ok (item : CrossrefItem) (k : Nat) (cts : List String)
    (h1 : item.dateParts ≠ []) (h2 : item.abstract = none)
    (h3 : item.containerTitle = some cts) :
    ∃ r, mkCrossrefResult item k = some r
      ∧ r.abstract = "Published in: " ++ String.intercalate ", " cts := by
  cases hdp : item.dateParts with
  | nil => exact absurd hdp h1
  | cons dp rest =>
      simp only [mkCrossrefResult, hdp]
      exact ⟨_, rfl, by simp [h2, h3]⟩

/-- The C9 scenario item: `title: ["Study X"]`, no abstract,
`container-title: ["Journal Y"]`. -/
def c9Item : CrossrefItem := { title := ["Study X"], containerTitle := some ["Journal Y"] }

/-- Witness for `C9_ok` at the concrete scenario item. -/
theorem C9_witness :
    ∃ r, mkCrossrefResult c9Item 0 = some r ∧ r.abstract = "Published in: Journal Y" := by
  obtain ⟨r, hr, hab⟩ := C9_ok c9Item 0 ["Journal Y"] (by decide) rfl rfl
  refine ⟨r, hr, ?_⟩
  rw [hab]
  decide

/-- C10: the post-parse year filter keeps every record with no extracted
year (`yearRangeDrop _ _ none = false`), and in each filtering variant a
processed record with no extracted date is present in the returned
sequence even when both date bounds are set (for google_scholar, provided
the candidate list fits under the `max_results` break; for researchgate and
scopus, for any item within the `[:max_results]` truncation window). -/
theorem C10_ok (df dt : Option String) :
    yearRangeDrop df dt none = false
    ∧ (∀ (q : String) (mr : Nat) (items : List RGItem) (it : RGItem),
        it ∈ items.take mr → rgYear it = none →
        ∃ k, mkRGResult it k ∈ search_researchgate (.status 200 (some items)) q mr df dt)
    ∧ (∀ (q : String) (mr : Nat) (items : List ScopusItem) (it : ScopusItem),
        it ∈ items.take mr → scopusYear it = none →
        ∃ k, mkScopusResult it k ∈ search_scopus (.status 200 (some items)) q mr df dt)
    ∧ (∀ (q : String) (mr : Nat) (pubs : List ScholarPub) (p : ScholarPub),
        p ∈ pubs → pubs.length ≤ mr → scholarYearOpt p = none →
        ∃ k, mkScholarResult p k ∈ search_google_scholar (some pubs) q mr df dt) := by
  refine ⟨by simp [yearRangeDrop], ?_, ?_, ?_⟩
  · intro q mr items it hit hy
    rw [search_researchgate_200]
    exact parseRGAux_keeps_dateless df dt (items.take mr) [] it hit hy
  · intro q mr items it hit hy
    rw [search_scopus_200]
    exact parseScopusAux_keeps_dateless df dt (items.take mr) [] it hit hy
  · intro q mr pubs p hp hlen hy
    rw [search_google_scholar_some]
    refine parseScholarAux_keeps_dateless mr df dt pubs [] p hp ?_ hy
    simpa using hlen

/-- A ResearchGate item with no extractable year. -/
def c10RgItem : RGItem := { titleLink := some { text := "NoDate" } }

/-- A Scopus row with no extractable year. -/
def c10ScopusItem : ScopusItem := { titleLink := some { text := "NoDate" } }

/-- A Scholar publication with no publication year. -/
def c10Pub : ScholarPub := { title := "NoDate" }

/-- Witness for `C10_ok` under the 2022 date range. -/
theorem C10_witness :
    yearRangeDrop (some "2022-01-01") (some "2022-12-31") none = false
    ∧ (∃ k, mkRGResult c10RgItem k ∈
        search_researchgate (.status 200 (some [c10RgItem])) "q" 10
          (some "2022-01-01") (some "2022-12-31"))
    ∧ (∃ k, mkScopusResult c10ScopusItem k ∈
        search_scopus (.status 200 (some [c10ScopusItem])) "q" 10
          (some "2022-01-01") (some "2022-12-31"))
    ∧ (∃ k, mkScholarResult c10Pub k ∈
        search_google_scholar (some [c10Pub]) "q" 10
          (some "2022-01-01") (some "2022-12-31")) := by
  have h := C10_ok (some "2022-01-01") (some "2022-12-31")
  exact ⟨h.1, h.2.1 "q" 10 [c10RgItem] c10RgItem (by decide) rfl,
    h.2.2.1 "q" 10 [c10ScopusItem] c10ScopusItem (by decide) rfl,
    h.2.2.2 "q" 10 [c10Pub] c10Pub (by decide) (by decide) rfl⟩

end Scrapper
